import Mathlib

/-!
Verification of the Acme Logistics Load Broker API (src/api/main.py).

The Python service is embedded shallowly:
* the pydantic models Load, CarrierVerificationRequest and CallLog become
  Lean structures with the same fields;
* each handler becomes a pure function over an explicit environment: the
  state of the loads file, the state of the call-log file and the response
  of the FMCSA registry are passed in as values;
* Python string operations (lower, substring membership, equality) are
  modelled over Lean strings, and the Python truthiness test used on the
  optional query parameters (None and the empty string are falsy) is
  modelled explicitly.
-/

/-- A freight load record, mirroring the pydantic model Load
(src/api/main.py lines 87 to 100). -/
structure Load where
  load_id : String
  origin : String
  destination : String
  pickup_datetime : String
  delivery_datetime : String
  equipment_type : String
  loadboard_rate : Float
  notes : String
  weight : Int
  commodity_type : String
  num_of_pieces : Int
  miles : Int
  dimensions : String

/-- First record of the sampleLoads literal (src/api/main.py lines 28 to 42). -/
def load1 : Load :=
  { load_id := "LID-001"
    origin := "New York, NY"
    destination := "Chicago, IL"
    pickup_datetime := "2025-09-29T09:00:00Z"
    delivery_datetime := "2025-09-30T17:00:00Z"
    equipment_type := "Van"
    loadboard_rate := 1800.00
    notes := "Team drivers preferred for fast delivery."
    weight := 42000
    commodity_type := "General Freight"
    num_of_pieces := 1
    miles := 790
    dimensions := "53ft" }

/-- Second record of the sampleLoads literal (src/api/main.py lines 43 to 57). -/
def load2 : Load :=
  { load_id := "LID-002"
    origin := "Dallas, TX"
    destination := "Los Angeles, CA"
    pickup_datetime := "2025-09-29T14:00:00Z"
    delivery_datetime := "2025-10-01T22:00:00Z"
    equipment_type := "Reefer"
    loadboard_rate := 2500.00
    notes := "Must maintain temperature at 34Â°F. Produce."
    weight := 44000
    commodity_type := "Produce"
    num_of_pieces := 1200
    miles := 1435
    dimensions := "53ft" }

/-- Third record of the sampleLoads literal (src/api/main.py lines 58 to 72). -/
def load3 : Load :=
  { load_id := "LID-003"
    origin := "New York, NY"
    destination := "Miami, FL"
    pickup_datetime := "2025-09-30T11:00:00Z"
    delivery_datetime := "2025-10-02T15:00:00Z"
    equipment_type := "Van"
    loadboard_rate := 2100.00
    notes := "No touch freight. Drop and hook at destination."
    weight := 38000
    commodity_type := "Electronics"
    num_of_pieces := 800
    miles := 1285
    dimensions := "53ft" }

/-- The in-memory catalog sampleLoads (src/api/main.py lines 27 to 73). -/
def sampleLoads : List Load := [load1, load2, load3]

/-- Substring test on character lists: does the needle occur as a contiguous
run inside the haystack? -/
def charsContain (needle : List Char) : List Char → Bool
  | [] => needle.isEmpty
  | c :: rest => needle.isPrefixOf (c :: rest) || charsContain needle rest

/-- The Python expression needle in hay on strings: substring membership. -/
def pyIn (needle hay : String) : Bool :=
  charsContain needle.toList hay.toList

/-- The Python method lower() on a string, character by character (for the
ASCII data handled by this service this is exactly the Python behavior). -/
def pyLower (s : String) : String :=
  String.mk (s.toList.map Char.toLower)

/-- The origin filter predicate of search_loads (src/api/main.py line 163). -/
def originPred (s : String) (load : Load) : Bool :=
  pyIn (pyLower s) (pyLower load.origin)

/-- The destination filter predicate of search_loads (src/api/main.py line 165). -/
def destinationPred (s : String) (load : Load) : Bool :=
  pyIn (pyLower s) (pyLower load.destination)

/-- The equipment_type filter predicate of search_loads (src/api/main.py line 167). -/
def equipmentPred (s : String) (load : Load) : Bool :=
  pyLower s == pyLower load.equipment_type

/-- One filtering step of search_loads, for example at src/api/main.py
lines 162 and 163. The Python test if origin: is a truthiness test on
Optional[str], so both None and the empty string leave the list unchanged;
any other value filters the list by the given predicate. -/
def pyFilter (param : Option String) (pred : String → Load → Bool)
    (loads : List Load) : List Load :=
  match param with
  | none => loads
  | some s => if s.isEmpty then loads else loads.filter (fun load => pred s load)

/-- An HTTPException raised by a handler: a status code and a detail string. -/
structure HTTPException where
  status_code : Nat
  detail : String

/-- The GET /loads handler search_loads (src/api/main.py lines 151 to 172):
build the catalog from the sampleLoads literal, apply the three optional
filters in the fixed order origin, destination, equipment_type, and raise
404 when no load is left. -/
def search_loads (origin destination equipment_type : Option String) :
    Except HTTPException (List Load) :=
  let all_loads := sampleLoads
  let filtered1 := pyFilter origin originPred all_loads
  let filtered2 := pyFilter destination destinationPred filtered1
  let filtered3 := pyFilter equipment_type equipmentPred filtered2
  if filtered3.isEmpty then
    Except.error ⟨404, "No matching loads found"⟩
  else
    Except.ok filtered3

/-- Lift one optional filter parameter to a per-record Boolean: an absent or
empty parameter accepts every record (it is falsy, hence a no-op in the
code), a non-empty parameter applies its predicate. -/
def truthyPred (param : Option String) (pred : String → Bool) : Bool :=
  match param with
  | none => true
  | some s => if s.isEmpty then true else pred s

/-- The net per-record predicate implemented by search_loads: each truthy
parameter contributes its filter, combined in source order. -/
def effKeep (origin destination equipment_type : Option String) (load : Load) : Bool :=
  (truthyPred origin (fun s => originPred s load)
      && truthyPred destination (fun s => destinationPred s load))
    && truthyPred equipment_type (fun s => equipmentPred s load)

/-- Modelled from the claim wording (spec sections 4.2 and 8): an absent
filter is a no-op while a supplied filter, including a supplied empty
string, contributes its predicate. Used only to compare the claim against
search_loads. -/
def suppliedKeep (origin destination equipment_type : Option String) (load : Load) : Bool :=
  (match origin with
    | none => true
    | some s => originPred s load)
  && (match destination with
    | none => true
    | some s => destinationPred s load)
  && (match equipment_type with
    | none => true
    | some s => equipmentPred s load)

theorem filter_and_fuse {α : Type} (p q : α → Bool) (l : List α) :
    (l.filter p).filter q = l.filter (fun a => p a && q a) := by
  induction l with
  | nil => rfl
  | cons a t ih =>
    by_cases hp : p a
    · by_cases hq : q a <;> simp [List.filter_cons, hp, hq, ih]
    · simp [List.filter_cons, hp, ih]

theorem pyFilter_eq_filter (param : Option String) (pred : String → Load → Bool)
    (loads : List Load) :
    pyFilter param pred loads
      = loads.filter (fun load => truthyPred param (fun s => pred s load)) := by
  cases param with
  | none => simp [pyFilter, truthyPred]
  | some s => by_cases h : s.isEmpty <;> simp [pyFilter, truthyPred, h]

theorem search_spec (o d e : Option String) :
    search_loads o d e =
      if (sampleLoads.filter (fun load => effKeep o d e load)).isEmpty then
        Except.error ⟨404, "No matching loads found"⟩
      else
        Except.ok (sampleLoads.filter (fun load => effKeep o d e load)) := by
  simp only [search_loads, pyFilter_eq_filter, filter_and_fuse, effKeep]

/-- C1 (amended): for every combination of the optional query filters,
search_loads returns exactly the catalog records that satisfy all effective
predicates, where origin and destination are case-insensitive substring
matches, equipment_type is a case-insensitive exact match, and both absent
and empty-string filters are no-ops (Python truthiness); the records are
returned in catalog source order, and searching with equipment_type Van
returns LID-001 and LID-003 in that order. -/
theorem C1_thm (o d e : Option String) :
    search_loads o d e =
      (if (sampleLoads.filter (fun load => effKeep o d e load)).isEmpty then
        Except.error ⟨404, "No matching loads found"⟩
      else
        Except.ok (sampleLoads.filter (fun load => effKeep o d e load)))
    ∧ (sampleLoads.filter (fun load => effKeep o d e load)).Sublist sampleLoads
    ∧ search_loads none none (some "Van") = Except.ok [load1, load3] :=
  ⟨search_spec o d e, List.filter_sublist sampleLoads, rfl⟩

/-- C1 counterexample: at the filter combination (none, none, some empty
string) no catalog record satisfies the supplied exact-match predicate, yet
search_loads treats the empty string as falsy, skips the filter and returns
the whole catalog instead of the empty selection the claim demands. -/
theorem C1_cex :
    search_loads none none (some "") = Except.ok [load1, load2, load3]
    ∧ sampleLoads.filter (fun load => suppliedKeep none none (some "") load) = [] :=
  ⟨rfl, rfl⟩

/-- Detects an empty but successful result of the loads search. -/
def isEmptyOk (r : Except HTTPException (List Load)) : Bool :=
  match r with
  | Except.ok [] => true
  | _ => false

/-- C5 (amended): whenever no load satisfies all effective predicates
(absent and empty-string filters acting as no-ops), search_loads fails with
status 404 and detail No matching loads found; and search_loads never
returns an empty successful list. -/
theorem C5_thm (o d e : Option String)
    (h : sampleLoads.filter (fun load => effKeep o d e load) = []) :
    search_loads o d e = Except.error ⟨404, "No matching loads found"⟩
    ∧ ∀ o2 d2 e2 : Option String, isEmptyOk (search_loads o2 d2 e2) = false := by
  constructor
  · rw [search_spec, h]
    rfl
  · intro o2 d2 e2
    rw [search_spec]
    cases hf : sampleLoads.filter (fun load => effKeep o2 d2 e2 load) with
    | nil => simp [isEmptyOk]
    | cons a t => simp [isEmptyOk]

theorem C5_wit :
    search_loads (some "Zanzibar") none none
      = Except.error ⟨404, "No matching loads found"⟩ :=
  (C5_thm (some "Zanzibar") none none rfl).1

/-- C5 counterexample: with origin Dallas and an empty equipment_type, no
record satisfies all supplied predicates as the claim reads them, yet
search_loads succeeds with LID-002 because the empty equipment filter is
falsy and skipped. -/
theorem C5_cex :
    sampleLoads.filter (fun load => suppliedKeep (some "Dallas") none (some "") load) = []
    ∧ search_loads (some "Dallas") none (some "") = Except.ok [load2] :=
  ⟨rfl, rfl⟩

/-- The innermost object of the FMCSA carrier payload: holds the nested
operational-status string read by verify_carrier; a missing field models a
JSON object without that key. -/
structure CarrierOperationInfo where
  carrierOperation : Option String

/-- The carrier object of the FMCSA carrier payload. -/
structure CarrierInfo where
  carrierOperation : Option CarrierOperationInfo

/-- One record of the content list of the FMCSA response body. -/
structure CarrierRecord where
  carrier : Option CarrierInfo

/-- The JSON body of a successful FMCSA response, as far as verify_carrier
reads it: an optional content list of carrier records. -/
structure FmcsaBody where
  content : Option (List CarrierRecord)

/-- The outcome of one GET to the FMCSA registry, as seen through the
requests library: a successful response with a JSON body, an error status
raised by raise_for_status as an HTTPError, or a transport-level
RequestException. -/
inductive FmcsaResponse where
  | success (data : FmcsaBody)
  | httpError (status_code : Nat)
  | transportError

/-- The observable result of the verify_carrier handler: a returned JSON
answer, a raised HTTPException, or a Python exception that escapes the
handler unhandled. -/
inductive VerifyOutcome where
  | answer (eligible : Bool) (detail : String)
  | raised (e : HTTPException)
  | unhandled (msg : String)

/-- Reads the nested operational status of the first record of the content
list (src/api/main.py line 190): indexing an empty list raises IndexError,
modelled as none; every missing object level defaults to an empty dict and
the missing status string defaults to the placeholder N. -/
def firstCarrierStatus (content : List CarrierRecord) : Option String :=
  match content with
  | [] => none
  | r :: _ =>
    some ((((r.carrier.getD ⟨none⟩).carrierOperation.getD ⟨none⟩).carrierOperation).getD "N")

/-- The POST /carrier/verify handler verify_carrier (src/api/main.py lines
179 to 202), as a function of the registry response for the requested MC
number. A missing content key defaults to a one-element list holding an
empty dict; the status of the first record decides eligibility by exact
comparison with OUT-OF-SERVICE; an HTTPError with status 404 is answered as
carrier not found; any other HTTPError and any RequestException raise
HTTPException 503. -/
def verify_carrier (mc_number : String) (resp : FmcsaResponse) : VerifyOutcome :=
  match resp with
  | FmcsaResponse.success data =>
    match firstCarrierStatus (data.content.getD [⟨none⟩]) with
    | none => VerifyOutcome.unhandled "IndexError: list index out of range"
    | some status =>
      let is_active := status != "OUT-OF-SERVICE"
      if is_active then VerifyOutcome.answer true "Carrier is active and eligible"
      else VerifyOutcome.answer false "Carrier is not active or out of service"
  | FmcsaResponse.httpError status_code =>
    if status_code == 404 then VerifyOutcome.answer false "Carrier not found."
    else VerifyOutcome.raised ⟨503, "FMCSA API service is currently unavailable"⟩
  | FmcsaResponse.transportError =>
    VerifyOutcome.raised ⟨503, "Could not connect to the FMCSA API."⟩

/-- Detects the business-answer outcomes of verify_carrier. -/
def isAnswer : VerifyOutcome → Bool
  | VerifyOutcome.answer _ _ => true
  | _ => false

/-- Detects an unhandled Python exception escaping verify_carrier. -/
def isUnhandled : VerifyOutcome → Bool
  | VerifyOutcome.unhandled _ => true
  | _ => false

/-- Detects a raised HTTPException outcome of verify_carrier. -/
def isRaised : VerifyOutcome → Bool
  | VerifyOutcome.raised _ => true
  | _ => false

/-- C2 (amended): on every successful registry response whose content list,
when present, is non-empty, verify_carrier answers eligible false with the
not-active detail exactly when the nested operational status of the first
carrier record (defaulted to N at every missing level, including a missing
content key) equals OUT-OF-SERVICE, and otherwise answers eligible true
with the active detail. -/
theorem C2_thm (mc_number : String) (data : FmcsaBody)
    (h : data.content ≠ some []) :
    (verify_carrier mc_number (FmcsaResponse.success data)
        = VerifyOutcome.answer false "Carrier is not active or out of service"
      ↔ firstCarrierStatus (data.content.getD [⟨none⟩]) = some "OUT-OF-SERVICE")
    ∧ (verify_carrier mc_number (FmcsaResponse.success data)
        = VerifyOutcome.answer true "Carrier is active and eligible"
      ↔ ∃ s, firstCarrierStatus (data.content.getD [⟨none⟩]) = some s
          ∧ s ≠ "OUT-OF-SERVICE") := by
  rcases hc : data.content with _ | l
  · constructor
    · simp [verify_carrier, firstCarrierStatus, hc]
    · simp [verify_carrier, firstCarrierStatus, hc]
  · rcases l with _ | ⟨r, t⟩
    · exact absurd hc h
    · by_cases hs :
        (((r.carrier.getD ⟨none⟩).carrierOperation.getD ⟨none⟩).carrierOperation).getD "N"
          = "OUT-OF-SERVICE"
      · constructor
        · simp [verify_carrier, firstCarrierStatus, hc, hs]
        · simp [verify_carrier, firstCarrierStatus, hc, hs]
      · constructor
        · simp [verify_carrier, firstCarrierStatus, hc, hs, bne_iff_ne]
        · simp [verify_carrier, firstCarrierStatus, hc, hs, bne_iff_ne]

theorem C2_wit :
    verify_carrier "123456" (FmcsaResponse.success ⟨none⟩)
      = VerifyOutcome.answer true "Carrier is active and eligible" :=
  ((C2_thm "123456" ⟨none⟩ (by simp)).2).mpr ⟨"N", rfl, by decide⟩

/-- C2 counterexample: a successful registry response whose body carries an
empty content list makes verify_carrier raise an unhandled IndexError, so
it returns neither of the two answers the claim promises for every
successful response. -/
theorem C2_cex :
    verify_carrier "246810" (FmcsaResponse.success ⟨some []⟩)
      = VerifyOutcome.unhandled "IndexError: list index out of range"
    ∧ isAnswer (verify_carrier "246810" (FmcsaResponse.success ⟨some []⟩)) = false :=
  ⟨rfl, rfl⟩

/-- C6: whenever the registry reports status 404 for the requested MC
number, verify_carrier returns the successful business answer eligible
false with detail Carrier not found, rather than failing. -/
theorem C6_thm (mc_number : String) :
    verify_carrier mc_number (FmcsaResponse.httpError 404)
      = VerifyOutcome.answer false "Carrier not found." := rfl

/-- C7: every registry-side error status other than 404 makes verify_carrier
raise HTTPException 503 with the generic unavailability detail, every
transport-level failure makes it raise HTTPException 503 with the
connectivity detail, and in neither case does a raw exception escape. -/
theorem C7_thm (mc_number : String) (status_code : Nat) (h : status_code ≠ 404) :
    verify_carrier mc_number (FmcsaResponse.httpError status_code)
      = VerifyOutcome.raised ⟨503, "FMCSA API service is currently unavailable"⟩
    ∧ verify_carrier mc_number FmcsaResponse.transportError
      = VerifyOutcome.raised ⟨503, "Could not connect to the FMCSA API."⟩
    ∧ isUnhandled (verify_carrier mc_number (FmcsaResponse.httpError status_code)) = false
    ∧ isUnhandled (verify_carrier mc_number FmcsaResponse.transportError) = false := by
  have hb : (status_code == 404) = false := beq_eq_false_iff_ne.mpr h
  refine ⟨?_, rfl, ?_, rfl⟩
  · simp [verify_carrier, hb]
  · simp [verify_carrier, hb, isUnhandled]

theorem C7_wit :
    verify_carrier "123456" (FmcsaResponse.httpError 500)
      = VerifyOutcome.raised ⟨503, "FMCSA API service is currently unavailable"⟩ :=
  (C7_thm "123456" 500 (by decide)).1

/-- C9: a successful registry response whose JSON body has a content field
equal to the empty list escapes verify_carrier as an unhandled IndexError,
yielding neither a business answer nor a raised HTTPException, while the
missing-key case is defaulted to a non-empty placeholder list and answers
eligible true. -/
theorem C9_thm :
    verify_carrier "987654" (FmcsaResponse.success ⟨some []⟩)
      = VerifyOutcome.unhandled "IndexError: list index out of range"
    ∧ isAnswer (verify_carrier "987654" (FmcsaResponse.success ⟨some []⟩)) = false
    ∧ isRaised (verify_carrier "987654" (FmcsaResponse.success ⟨some []⟩)) = false
    ∧ verify_carrier "987654" (FmcsaResponse.success ⟨none⟩)
      = VerifyOutcome.answer true "Carrier is active and eligible" :=
  ⟨rfl, rfl, rfl, rfl⟩

/-- A call outcome record, mirroring the pydantic model CallLog
(src/api/main.py lines 105 to 112). -/
structure CallLog where
  mc_number : String
  load_id : Option String
  outcome : String
  sentiment : String
  negotiation_rounds : Int
  final_rate : Option Float
  call_duration_seconds : Int

/-- The state of the call-log backing file
dashboard/testData/call_logs.json: absent, present but unparseable, or a
parseable JSON sequence of call-log records. -/
inductive LogStore where
  | absent
  | corrupt
  | records (logs : List CallLog)

/-- Re-reading the persisted call-log sequence: an absent or unparseable
store reads as the empty sequence. -/
def readLogs : LogStore → List CallLog
  | LogStore.absent => []
  | LogStore.corrupt => []
  | LogStore.records logs => logs

/-- save_call_log (src/api/main.py lines 124 to 136): start from the empty
sequence when the file does not exist (os.path.exists) or raises
JSONDecodeError, append the new record, and rewrite the whole sequence. -/
def save_call_log (log : CallLog) (store : LogStore) : LogStore :=
  let logs : List CallLog :=
    match store with
    | LogStore.absent => []
    | LogStore.corrupt => []
    | LogStore.records existing => existing
  LogStore.records (logs ++ [log])

/-- C3: for every call-log record and every prior store state, save_call_log
persists exactly the prior sequence (empty when the store is absent or
unparseable) extended with the new record: the re-read sequence equals the
prior sequence plus the record, its last element is the record, its length
grows by one, and its earlier elements are unchanged. -/
theorem C3_thm (log : CallLog) (store : LogStore) :
    readLogs (save_call_log log store) = readLogs store ++ [log]
    ∧ (readLogs (save_call_log log store)).getLast? = some log
    ∧ (readLogs (save_call_log log store)).length = (readLogs store).length + 1
    ∧ (readLogs (save_call_log log store)).take (readLogs store).length = readLogs store := by
  have hbase : readLogs (save_call_log log store) = readLogs store ++ [log] := by
    cases store <;> rfl
  refine ⟨hbase, ?_, ?_, ?_⟩
  · rw [hbase]
    exact List.getLast?_concat _
  · rw [hbase]
    simp
  · rw [hbase]
    exact List.take_left _ _

/-- The credential pair produced by the bearer security scheme. -/
structure HTTPAuthorizationCredentials where
  scheme : String
  credentials : String

/-- The Python expression s.partition with a single space separator, on
character lists: the part before the first space and the part after it (the
whole string and the empty rest when no space occurs). -/
def splitFirstSpace : List Char → List Char × List Char
  | [] => ([], [])
  | c :: rest =>
    if c = ' ' then ([], rest)
    else
      let p := splitFirstSpace rest
      (c :: p.1, p.2)

/-- Splits an Authorization header value into scheme and credential at the
first space, as the framework helper get_authorization_scheme_param does. -/
def partitionSpace (s : String) : String × String :=
  let p := splitFirstSpace s.toList
  (String.mk p.1, String.mk p.2)

/-- Modelled from the library dependency used at src/api/main.py line 75:
fastapi.security.HTTPBearer with the default auto_error, called on the
Authorization header of the request. A missing header, or one without both
a scheme part and a credential part, is rejected with HTTP 403 and detail
Not authenticated; a scheme other than bearer compared case-insensitively
is rejected with HTTP 403 and detail Invalid authentication credentials;
otherwise the scheme and credential are handed to the route dependency
unchanged. -/
def HTTPBearer_call (authorization : Option String) :
    Except HTTPException HTTPAuthorizationCredentials :=
  let value := authorization.getD ""
  let parsed := partitionSpace value
  if value.isEmpty || parsed.1.isEmpty || parsed.2.isEmpty then
    Except.error ⟨403, "Not authenticated"⟩
  else if pyLower parsed.1 != "bearer" then
    Except.error ⟨403, "Invalid authentication credentials"⟩
  else
    Except.ok ⟨parsed.1, parsed.2⟩

/-- The get_current_user dependency (src/api/main.py lines 77 to 84):
reject with HTTP 401 unless the parsed scheme is exactly Bearer and the
credential equals the configured API key. -/
def get_current_user (api_key : String)
    (credentials : HTTPAuthorizationCredentials) : Except HTTPException Bool :=
  if credentials.scheme != "Bearer" || credentials.credentials != api_key then
    Except.error ⟨401, "Invalid or missing API key"⟩
  else
    Except.ok true

/-- The full authentication path run on every protected endpoint (GET
/loads, POST /carrier/verify, POST /call-log) before the handler body: the
bearer security scheme followed by get_current_user. -/
def auth_guard (api_key : String) (authorization : Option String) :
    Except HTTPException Bool :=
  match HTTPBearer_call authorization with
  | Except.error e => Except.error e
  | Except.ok credentials => get_current_user api_key credentials

theorem HTTPBearer_call_error_403 (authorization : Option String)
    (e : HTTPException) (h : HTTPBearer_call authorization = Except.error e) :
    e.status_code = 403 := by
  simp only [HTTPBearer_call] at h
  split at h
  · cases h
    rfl
  · split at h
    · cases h
      rfl
    · cases h

/-- C4 (amended): a request whose Authorization header parses under the
bearer security scheme but whose scheme is not exactly Bearer or whose
credential differs from the configured API key is rejected with HTTP 401
and an invalid-or-missing-credential detail, regardless of the endpoint and
of the payload; a request with a missing Authorization header is rejected
with HTTP 403 Not authenticated, and every rejection of the security scheme
itself carries HTTP 403. -/
theorem C4_thm (api_key scheme credentials : String) (authorization : Option String)
    (hok : HTTPBearer_call authorization = Except.ok ⟨scheme, credentials⟩)
    (hbad : scheme ≠ "Bearer" ∨ credentials ≠ api_key) :
    auth_guard api_key authorization = Except.error ⟨401, "Invalid or missing API key"⟩
    ∧ auth_guard api_key none = Except.error ⟨403, "Not authenticated"⟩
    ∧ ∀ a : Option String, ∀ e : HTTPException,
        HTTPBearer_call a = Except.error e →
          auth_guard api_key a = Except.error e ∧ e.status_code = 403 := by
  refine ⟨?_, rfl, ?_⟩
  · have hcond : (scheme != "Bearer" || credentials != api_key) = true := by
      simp only [Bool.or_eq_true, bne_iff_ne]
      exact hbad
    simp [auth_guard, hok, get_current_user, hcond]
  · intro a e he
    refine ⟨?_, HTTPBearer_call_error_403 a e he⟩
    simp [auth_guard, he]

theorem C4_wit :
    auth_guard "secret-key" (some "bearer secret-key")
      = Except.error ⟨401, "Invalid or missing API key"⟩ :=
  (C4_thm "secret-key" "bearer" "secret-key" (some "bearer secret-key") rfl
    (Or.inl (by decide))).1

/-- C4 counterexample: a request to a protected endpoint with no
Authorization header at all is rejected by the bearer security scheme with
HTTP 403 Not authenticated, not with the HTTP 401 the claim asserts. -/
theorem C4_cex :
    auth_guard "secret-key" none = Except.error ⟨403, "Not authenticated"⟩
    ∧ ∀ d : String, auth_guard "secret-key" none ≠ Except.error ⟨401, d⟩ := by
  refine ⟨rfl, ?_⟩
  intro d h
  rw [show auth_guard "secret-key" none = Except.error ⟨403, "Not authenticated"⟩ from rfl] at h
  simp at h

/-- The state of the loads backing file ./testData/loads.json: missing, or
present with a parseable list of load records. -/
inductive LoadsFile where
  | missing
  | present (items : List Load)

/-- load_db (src/api/main.py lines 115 to 122): read the loads file and
build the record list; FileNotFoundError is caught and yields the empty
list. -/
def load_db : LoadsFile → List Load
  | LoadsFile.missing => []
  | LoadsFile.present items => items

/-- C8: when the loads backing file is missing, load_db returns the empty
collection instead of failing, and when the file is present it returns its
records. -/
theorem C8_thm :
    load_db LoadsFile.missing = []
    ∧ ∀ items : List Load, load_db (LoadsFile.present items) = items :=
  ⟨rfl, fun _ => rfl⟩

/-- The GET /loads route handler seen with the world state in scope: the
loads backing file is part of the environment, but the handler body builds
its catalog from the in-memory sampleLoads literal (src/api/main.py line
159) and never calls load_db on the file. -/
def search_loads_route (loadsFile : LoadsFile)
    (origin destination equipment_type : Option String) :
    Except HTTPException (List Load) :=
  search_loads origin destination equipment_type

/-- C10: the response of the loads search is identical for every pair of
states of the loads backing file, and every successful response is a
selection from the in-memory sampleLoads catalog; the file contents have no
influence on any /loads response. -/
theorem C10_thm (file1 file2 : LoadsFile) (o d e : Option String) :
    search_loads_route file1 o d e = search_loads_route file2 o d e
    ∧ ∀ loads : List Load,
        search_loads_route file1 o d e = Except.ok loads → loads.Sublist sampleLoads := by
  refine ⟨rfl, ?_⟩
  intro loads hok
  simp only [search_loads_route] at hok
  rw [search_spec] at hok
  by_cases hemp : (sampleLoads.filter (fun load => effKeep o d e load)).isEmpty
  · rw [if_pos hemp] at hok
    exact absurd hok (by simp)
  · rw [if_neg hemp] at hok
    injection hok with h2
    rw [← h2]
    exact List.filter_sublist sampleLoads

theorem C10_wit :
    search_loads_route LoadsFile.missing none none (some "Van")
      = search_loads_route (LoadsFile.present []) none none (some "Van")
    ∧ List.Sublist [load1, load3] sampleLoads :=
  ⟨(C10_thm LoadsFile.missing (LoadsFile.present []) none none (some "Van")).1,
   (C10_thm LoadsFile.missing (LoadsFile.present []) none none (some "Van")).2
     [load1, load3] rfl⟩
